import Mathlib

/-!
Verification of the agent-server gateway (src/api/run.ts) against its
natural-language specification.  The TypeScript source is shallowly
embedded: JS `Map`s become association lists, header values become
`Option String` (`none` = absent header), and the generation service is
an input (an outcome value or an oracle), since it is an external
collaborator.
-/

namespace AgentServer

/-! ### Association maps (JS `Map.set` / `Map.get`) -/

/-- JS `Map.set`: replace the value at an existing key in place, else append. -/
def mapSet {α : Type} : List (String × α) → String → α → List (String × α)
  | [], k, v => [(k, v)]
  | (k', v') :: rest, k, v =>
    if k' = k then (k, v) :: rest else (k', v') :: mapSet rest k v

/-- JS `Map.get`: the value at the key, or `none`. -/
def mapGet {α : Type} : List (String × α) → String → Option α
  | [], _ => none
  | (k', v') :: rest, k => if k' = k then some v' else mapGet rest k

/-! ### Credential extraction (run.ts lines 1113-1122)

`const apiKey = req.headers.authorization?.replace('Bearer ', '') ||
                req.headers['x-api-key'];
 if (!apiKey || apiKey !== process.env.API_KEY) { 401 }`
-/

/-- JS `String.prototype.replace` with a string pattern and empty
replacement: remove the first occurrence of `pat` from `s`. -/
def removeFirstOcc : List Char → List Char → List Char
  | [], _ => []
  | c :: rest, pat =>
    if pat.isPrefixOf (c :: rest) then (c :: rest).drop pat.length
    else c :: removeFirstOcc rest pat

/-- JS `s.replace(pat, '')` for a string pattern (first occurrence only). -/
def replaceFirst (s pat : String) : String :=
  ⟨removeFirstOcc s.data pat.data⟩

/-- JS `authorization.replace('Bearer ', '')`. -/
def stripBearer (a : String) : String := replaceFirst a "Bearer "

/-- JS `authorization?.replace('Bearer ', '') || req.headers['x-api-key']`:
an absent header is `none`; the empty string is falsy, so a stripped
authorization value of `""` falls through to the x-api-key header. -/
def extractCredential (auth xkey : Option String) : Option String :=
  match auth with
  | some a => if stripBearer a = "" then xkey else some (stripBearer a)
  | none => xkey

/-- Negation of `!apiKey || apiKey !== process.env.API_KEY`: the request is
authorized iff a truthy credential was extracted and it equals the
configured secret (`none` secret = `API_KEY` unset, never equal to a
string). -/
def authOk (auth xkey secret : Option String) : Bool :=
  match extractCredential auth xkey with
  | none => false
  | some c => ¬(c = "") ∧ (some c = secret)

/-! ### Rate limiter (run.ts lines 631-634 and 1100-1111)

The `RateLimiterMemory` implementation lives in the external
`rate-limiter-flexible` package, not under src/; only its configuration
(`points: 100, duration: 60`) and the consuming call are in the source.
Its consume step is therefore modelled from the spec.
-/

def rlPoints : Nat := 100
def rlDuration : Nat := 60

/-- Per-client bucket state: points consumed so far and the start of the
current window, keyed by client network address. -/
abbrev LimiterMap := List (String × (Nat × Nat))

/-- Modelled from the spec: the consume step of the rate limiter
(`RateLimiterMemory`, not under src/) — "consume one point from a
per-client token bucket keyed by client network address ... (default:
100 points per 60-second window) — on exhaustion, fail with
RateLimitExceeded".  A client's first request opens a window holding
`rlPoints` points for `rlDuration` seconds; each request consumes one
point; when the window has elapsed the budget resets and admission
resumes.  Returns the new state and whether the request was admitted. -/
def rlConsume (m : LimiterMap) (key : String) (now : Nat) : LimiterMap × Bool :=
  match mapGet m key with
  | none => (mapSet m key (1, now), true)
  | some (c, ws) =>
    if ws + rlDuration ≤ now then (mapSet m key (1, now), true)
    else if c < rlPoints then (mapSet m key (c + 1, ws), true)
    else (m, false)

/-! ### Middleware chain (run.ts lines 1086-1134)

Order: security headers, CORS, rate limiting, API-key check, then the
wrapped handler.  The `cors` package configured with a static origin
list never fails the request (it only controls response headers), so the
first stage that can short-circuit is the rate limiter.  All
generation-service invocations occur inside route handlers, so a request
stopped by the middleware makes none.
-/

structure GatewayResult where
  status : Nat
  error : Option String
  handlerRan : Bool
  genCalls : Nat
  limiter : LimiterMap
  deriving Repr, DecidableEq

/-- The middleware wrapper: consume a rate-limit point for the client key
(`x-forwarded-for` header, or `'default'`), answering 429
`rate_limit_exceeded` on exhaustion; then validate the credential,
answering 401 `unauthorized` on failure; only then run the wrapped
handler (whose status and generation-invocation count are inputs). -/
def withMiddleware (limiter : LimiterMap) (now : Nat) (xff : Option String)
    (auth xkey secret : Option String)
    (handlerStatus : Nat) (handlerGen : Nat) : GatewayResult :=
  let key := xff.getD "default"
  let rl := rlConsume limiter key now
  if ¬ rl.2 then
    { status := 429, error := some "rate_limit_exceeded", handlerRan := false
      genCalls := 0, limiter := rl.1 }
  else if ¬ authOk auth xkey secret then
    { status := 401, error := some "unauthorized", handlerRan := false
      genCalls := 0, limiter := rl.1 }
  else
    { status := handlerStatus, error := none, handlerRan := true
      genCalls := handlerGen, limiter := rl.1 }

/-- Repeated consumption for one client key at one timestamp: the state
after `n` requests and how many of them were admitted. -/
def consumeRepeat (m : LimiterMap) (key : String) (t : Nat) : Nat → LimiterMap × Nat
  | 0 => (m, 0)
  | n + 1 =>
    let step := rlConsume m key t
    let rest := consumeRepeat step.1 key t n
    (rest.1, rest.2 + (if step.2 then 1 else 0))

/-! ### Conversation turns and chat request validation
(run.ts lines 620-624, ChatSchema) -/

/-- A conversation turn: role plus content.  History entries are passed
through untouched (`z.array(z.any())`), so content is kept as its
serialized text. -/
inductive Turn
  | userT (content : String)
  | assistantT (content : String)
  deriving Repr, DecidableEq

/-- A chat request body; `none` fields were absent from the JSON. -/
structure ChatBody where
  message : String
  history : Option (List Turn)
  stream : Option Bool
  deriving Repr, DecidableEq

/-- A parsed chat request after zod defaults. -/
structure ChatData where
  message : String
  history : List Turn
  stream : Bool
  deriving Repr, DecidableEq

/-- zod issue kinds produced by the two schemas: `too_small` on the named
field (from `z.string().min(1)`). -/
inductive FieldIssue
  | nameTooSmall
  | instructionsTooSmall
  | messageTooSmall
  deriving Repr, DecidableEq

/-- Parsing with `ChatSchema`: message must be a non-empty string; history
defaults to `[]`, stream to `false`. -/
def ChatSchema.parse (b : ChatBody) : Except (List FieldIssue) ChatData :=
  if b.message = "" then .error [.messageTooSmall]
  else .ok ⟨b.message, b.history.getD [], b.stream.getD false⟩

/-- The input forwarded to the generation service (run.ts lines
1451-1453, 1480-1482 and 1538-1540, identical in `handleChat` and
`handleQuickChat`): with a non-empty history, a fresh array of the
history turns with the user message appended; otherwise the bare
message string. -/
def buildInput (history : List Turn) (message : String) : String ⊕ List Turn :=
  if history.length > 0 then .inr (history ++ [Turn.userT message])
  else .inl message

/-! ### Generation outcomes and streaming events (run.ts lines 1439-1477) -/

/-- Outcome of one `run(agent, input)` call: the external generation
service either completes with a final output, a result history and the
last agent that answered (`none` when the SDK reports no last agent), or
throws with an error message. -/
inductive GenOutcome
  | ok (finalOutput : String) (history : List Turn) (lastAgent : Option String)
  | fail (msg : String)
  deriving Repr, DecidableEq

/-- Server-sent events written by the streaming branch of `handleChat`.
The constructor for incremental content chunks is part of the event
vocabulary of the spec; the source's streaming branch never emits it. -/
inductive StreamEvent
  | start (agent : String)
  | content (chunk : String)
  | result (response : String) (history : List Turn) (agentUsed lastAgent : String)
  | endEv
  | errorEv (msg : String)
  deriving Repr, DecidableEq

/-- The full event sequence the streaming branch writes before
`res.end()`: a start event naming the agent, then on success a result
event and an end event, or on a thrown generation failure a single
error event. -/
def streamEvents (agentId : String) (o : GenOutcome) : List StreamEvent :=
  match o with
  | .ok r h la => [.start agentId, .result r h agentId (la.getD agentId), .endEv]
  | .fail m => [.start agentId, .errorEv m]

/-! ### Agent registry (run.ts lines 612-618, 1201-1336, 1338-1416) -/

/-- A stored agent configuration (`AgentConfig` / parsed
`AgentCreateSchema` output).  Tool and handoff entries are passed
through untouched (`z.array(z.any())`); they are kept as serialized
text. -/
structure AgentData where
  name : String
  instructions : String
  model : String
  tools : List String
  handoffs : List String
  deriving Repr, DecidableEq

/-- The constructed `Agent` object stored in the `agents` map (built from
name, instructions, model and tools; handoffs are not passed for custom
agents). -/
structure AgentObj where
  name : String
  instructions : String
  model : String
  tools : List String
  deriving Repr, DecidableEq

/-- An agent-creation request body; `none` fields were absent. -/
structure AgentCreateBody where
  name : String
  instructions : String
  model : Option String
  tools : Option (List String)
  handoffs : Option (List String)
  deriving Repr, DecidableEq

/-- Parsing with `AgentCreateSchema`: name and instructions must be non-empty
strings (zod reports one `too_small` issue per offending field, both
when both are empty); model defaults to `'gpt-4o'`, tools and handoffs
to `[]`. -/
def AgentCreateSchema.parse (b : AgentCreateBody) :
    Except (List FieldIssue) AgentData :=
  let issues :=
    (if b.name = "" then [FieldIssue.nameTooSmall] else []) ++
    (if b.instructions = "" then [FieldIssue.instructionsTooSmall] else [])
  if issues.isEmpty then
    .ok ⟨b.name, b.instructions, b.model.getD "gpt-4o",
         b.tools.getD [], b.handoffs.getD []⟩
  else .error issues

/-- The two process-wide maps: `agents` (constructed Agent objects) and
`agentConfigs` (configs served by the API). -/
structure RegistryState where
  agents : List (String × AgentObj)
  agentConfigs : List (String × AgentData)
  deriving Repr, DecidableEq

/-- Result of `POST /api/agents` (handleAgents, POST branch). -/
structure AgentPostResult where
  status : Nat
  error : Option String
  issues : List FieldIssue
  returnedId : Option String
  state : RegistryState
  deriving Repr, DecidableEq

/-- POST branch of `handleAgents` (empty sub-path): parse the body; on zod
failure answer 400 `validation_error` with the issue list and leave both
maps untouched; on success store the new agent under a server-generated
identifier (`custom_${Date.now()}_${random}` — modelled as the input
`freshId`) with `Map.set`, and answer 201 with that identifier.  No
duplicate check is performed: `Map.set` overwrites any existing entry. -/
def handleAgentsPost (st : RegistryState) (freshId : String)
    (b : AgentCreateBody) : AgentPostResult :=
  match AgentCreateSchema.parse b with
  | .error is =>
    { status := 400, error := some "validation_error", issues := is
      returnedId := none, state := st }
  | .ok d =>
    { status := 201, error := none, issues := []
      returnedId := some freshId
      state := { agents := mapSet st.agents freshId ⟨d.name, d.instructions, d.model, d.tools⟩
                 agentConfigs := mapSet st.agentConfigs freshId d } }

/-- GET branch of `handleAgents` (`/api/agents/{id}`): the stored config under the
identifier (status 200), or 404 `agent_not_found`. -/
def handleAgentsGet (st : RegistryState) (id : String) :
    Nat × Option (String × AgentData) :=
  match mapGet st.agentConfigs id with
  | none => (404, none)
  | some c => (200, some (id, c))

/-! ### Router and chat handler (run.ts lines 1140-1195, 1422-1520) -/

/-- Routing targets of the main handler's path dispatch. -/
inductive RouteTarget
  | agents (rest : List String)
  | chat (rest : List String)
  | quickChat
  | notFound
  deriving Repr, DecidableEq

/-- The main handler's dispatch on `path[0]`. -/
def routeOf : List String → RouteTarget
  | "agents" :: rest => .agents rest
  | "chat" :: rest => .chat rest
  | "quick-chat" :: _ => .quickChat
  | _ => .notFound

/-- The path the per-route adapter src/api/chat/ritual-workflow.ts fixes
before forwarding to the main handler. -/
def ritualWorkflowAdapterPath : List String := ["chat", "ritual-workflow"]

/-- Identifiers registered by `initializeDefaultAgents` (run.ts lines
1220-1234). -/
def defaultAgentIds : List String :=
  ["weather", "math", "research", "coordinator",
   "composer-anthropology", "composer-biology", "composer-psychology",
   "composer-economy", "composer-ergonomics",
   "synthesizer", "red-flag-checker", "revisor", "ritual-workflow"]

/-- Field names of the `data` object in a non-streaming `handleChat`
success response (run.ts lines 1486-1495). -/
def chatSuccessFields : List String :=
  ["response", "history", "agent_used", "last_agent", "run_id"]

/-- A route handler response, with the field names of its `data` object
when it answers a success body. -/
structure ChatResponse where
  status : Nat
  error : Option String
  fields : List String
  deriving Repr, DecidableEq

/-- Handler `handleChat` for a non-streaming request: `POST` with exactly one
remaining path segment names the agent; unknown agents get 404; a zod
failure gets 400; otherwise one generation invocation is made and its
outcome is answered as a 200 body with `chatSuccessFields`, or as 500
`chat_error` if it threw. -/
def handleChat (registered : List String) (pathRest : List String)
    (method : String) (b : ChatBody) (gen : GenOutcome) : ChatResponse :=
  if method = "POST" ∧ pathRest.length = 1 then
    let agentId := pathRest.headD ""
    if agentId ∈ registered then
      match ChatSchema.parse b with
      | .error _ => ⟨400, some "validation_error", []⟩
      | .ok _ =>
        match gen with
        | .ok _ _ _ => ⟨200, none, chatSuccessFields⟩
        | .fail _ => ⟨500, some "chat_error", []⟩
    else ⟨404, some "agent_not_found", []⟩
  else ⟨405, some "method_not_allowed", []⟩

/-! ### Ritual workflow state machine (spec sections 4.5 and 9)

The source implements the ritual workflow as one instruction-driven
generation call on the `ritual-workflow` agent (run.ts lines 1037-1080);
the explicit five-perspective fan-out / synthesis / screening / revision
state machine exists only in the spec, which re-architected that
behavior.  It is therefore modelled here from the spec's words.
-/

/-- The five fixed perspectives, in the fixed collection order. -/
inductive Perspective
  | anthropology | biology | psychology | economy | ergonomics
  deriving Repr, DecidableEq

/-- Fixed perspective order: anthropology, biology, psychology, economy,
ergonomics. -/
def perspectiveOrder : List Perspective :=
  [.anthropology, .biology, .psychology, .economy, .ergonomics]

/-- A stage invocation made against the Generation Service Client during
one workflow run. -/
inductive StageCall
  | perspective (p : Perspective)
  | synthesis
  | screening
  | revision
  deriving Repr, DecidableEq

/-- A composer agent's output element ({koan, activity, symbolism}). -/
structure PerspectiveElement where
  koan : String
  activity : String
  symbolism : String
  deriving Repr, DecidableEq

/-- The synthesis / revision output schema
({koan, activity, activityDescription, themes}). -/
structure SynthesisArtifact where
  koan : String
  activity : String
  activityDescription : String
  themes : List String
  deriving Repr, DecidableEq

/-- The screening output schema ({flagged, issues, suggestions}). -/
structure ScreenResult where
  flagged : Bool
  issues : List String
  suggestions : List String
  deriving Repr, DecidableEq

/-- Stage-specific workflow failure reasons. -/
inductive FailReason
  | compositionFailed | synthesisFailed | screeningFailed | revisionFailed
  deriving Repr, DecidableEq

/-- Terminal status of a workflow run. -/
inductive WfOutcome
  | done (artifact : SynthesisArtifact) (ranRevision : Bool)
  | failed (reason : FailReason)
  deriving Repr, DecidableEq

/-- Modelled from the spec: the Generation Service Client as seen by the
workflow orchestrator, giving each stage invocation's outcome after its
retry budget (`none` = the stage could not obtain a schema-conforming
result within its budget). -/
structure GenOracle where
  perspective : Perspective → Option PerspectiveElement
  synthesize : List PerspectiveElement → Option SynthesisArtifact
  screen : SynthesisArtifact → Option ScreenResult
  revise : SynthesisArtifact → List String → List String → Option SynthesisArtifact

/-- Modelled from the spec: the ritual workflow orchestrator of spec
section 4.5, absent from src/ (the source delegates all sequencing to a
single instruction-driven generation call).  All five perspectives are
invoked; results are collected in the fixed perspective order; if none
succeeded the run fails with CompositionFailed; otherwise the successful
subset is synthesized, the artifact is screened, and if screening flags
issues one revision replaces the artifact.  Returns the terminal outcome
and the list of stage invocations actually made, in order. -/
def runRitualWorkflow (g : GenOracle) : WfOutcome × List StageCall :=
  let pCalls := perspectiveOrder.map StageCall.perspective
  let results := perspectiveOrder.filterMap g.perspective
  if results.isEmpty then (.failed .compositionFailed, pCalls)
  else
    match g.synthesize results with
    | none => (.failed .synthesisFailed, pCalls ++ [.synthesis])
    | some art =>
      match g.screen art with
      | none => (.failed .screeningFailed, pCalls ++ [.synthesis, .screening])
      | some sr =>
        if sr.flagged then
          match g.revise art sr.issues sr.suggestions with
          | none => (.failed .revisionFailed, pCalls ++ [.synthesis, .screening, .revision])
          | some art' => (.done art' true, pCalls ++ [.synthesis, .screening, .revision])
        else (.done art false, pCalls ++ [.synthesis, .screening])

/-! ## Helper lemmas -/

theorem mapGet_mapSet_self {α : Type} (m : List (String × α)) (k : String) (v : α) :
    mapGet (mapSet m k v) k = some v := by
  induction m with
  | nil => simp [mapSet, mapGet]
  | cons hd tl ih =>
    obtain ⟨k', v'⟩ := hd
    by_cases h : k' = k
    · simp [mapSet, mapGet, h]
    · simp [mapSet, mapGet, h, ih]

theorem consumeRepeat_at (n : Nat) : ∀ (m : LimiterMap) (key : String) (t c : Nat),
    mapGet m key = some (c, t) → 0 < c → c ≤ rlPoints →
    (consumeRepeat m key t n).2 = min n (rlPoints - c) ∧
    mapGet (consumeRepeat m key t n).1 key = some (min (c + n) rlPoints, t) := by
  induction n with
  | zero =>
    intro m key t c hget hc hle
    simp [consumeRepeat, hget]
    omega
  | succ n ih =>
    intro m key t c hget hc hle
    have hwin : ¬ (t + rlDuration ≤ t) := by simp [rlDuration]
    by_cases hlt : c < rlPoints
    · have hstep : rlConsume m key t = (mapSet m key (c + 1, t), true) := by
        simp [rlConsume, hget, hwin, hlt]
      have hget' : mapGet (mapSet m key (c + 1, t)) key = some (c + 1, t) :=
        mapGet_mapSet_self m key (c + 1, t)
      obtain ⟨hcount, hstate⟩ :=
        ih (mapSet m key (c + 1, t)) key t (c + 1) hget' (by omega) (by omega)
      constructor
      · simp [consumeRepeat, hstep, hcount]
        omega
      · simp only [consumeRepeat, hstep]
        rw [hstate]
        congr 2
        omega
    · have hc100 : c = rlPoints := by omega
      have hstep : rlConsume m key t = (m, false) := by
        simp [rlConsume, hget, hwin, hlt]
      obtain ⟨hcount, hstate⟩ := ih m key t c hget hc hle
      constructor
      · simp [consumeRepeat, hstep, hcount]
        omega
      · simp only [consumeRepeat, hstep]
        rw [hstate]
        congr 2
        omega

theorem consumeRepeat_succ (m : LimiterMap) (key : String) (t n : Nat) :
    consumeRepeat m key t (n + 1) =
      ((consumeRepeat (rlConsume m key t).1 key t n).1,
       (consumeRepeat (rlConsume m key t).1 key t n).2 +
         (if (rlConsume m key t).2 then 1 else 0)) := rfl

theorem consumeRepeat_hundred (key : String) (t : Nat) :
    (consumeRepeat [] key t 100).2 = 100 ∧
    mapGet (consumeRepeat [] key t 100).1 key = some (100, t) := by
  have hstep : rlConsume [] key t = ([(key, (1, t))], true) := by
    simp [rlConsume, mapGet, mapSet]
  have hget : mapGet [(key, (1, t))] key = some (1, t) := by simp [mapGet]
  obtain ⟨hcount, hstate⟩ :=
    consumeRepeat_at 99 [(key, (1, t))] key t 1 hget (by omega) (by simp [rlPoints])
  have h1 : consumeRepeat [] key t 100 =
      ((consumeRepeat [(key, (1, t))] key t 99).1,
       (consumeRepeat [(key, (1, t))] key t 99).2 + 1) := by
    rw [show (100 : Nat) = 99 + 1 by norm_num, consumeRepeat_succ, hstep]
    simp
  rw [h1]
  constructor
  · rw [hcount]
    simp [rlPoints]
  · rw [hstate]
    congr 2

/-! ## Claim theorems -/

/-- C1: a successful POST to /api/chat/ritual-workflow is served by
`handleChat` (the adapter fixes path `["chat", "ritual-workflow"]`) and
its response data carries exactly the fields response, history,
agent_used, last_agent and run_id — it contains response, history and
agent_used as claimed, but no workflow_steps field, contradicting the
repository's own API_SPECIFICATION.md, which documents a workflow_steps
list for this route. -/
theorem ritual_workflow_response_lacks_workflow_steps :
    routeOf ritualWorkflowAdapterPath = .chat ["ritual-workflow"] ∧
    (handleChat defaultAgentIds ["ritual-workflow"] "POST"
        ⟨"Maak een ochtend meditatie ritueel voor stress reductie", some [], none⟩
        (.ok "ritueel" [] none)) =
      ⟨200, none, chatSuccessFields⟩ ∧
    "response" ∈ chatSuccessFields ∧
    "history" ∈ chatSuccessFields ∧
    "agent_used" ∈ chatSuccessFields ∧
    "workflow_steps" ∉ chatSuccessFields := by
  decide

/-- C2: in the workflow state machine modelled from the spec, a run in
which all five perspective invocations fail after their retry budget
terminates Failed with CompositionFailed, and its invocation log
contains the five perspective calls only — no synthesis and no
screening invocation is ever made. -/
theorem workflow_all_perspectives_fail (g : GenOracle)
    (h : ∀ p, g.perspective p = none) :
    runRitualWorkflow g =
      (.failed .compositionFailed, perspectiveOrder.map StageCall.perspective) ∧
    StageCall.synthesis ∉ (runRitualWorkflow g).2 ∧
    StageCall.screening ∉ (runRitualWorkflow g).2 := by
  have hres : perspectiveOrder.filterMap g.perspective = [] := by
    simp [perspectiveOrder, h]
  have hrun : runRitualWorkflow g =
      (.failed .compositionFailed, perspectiveOrder.map StageCall.perspective) := by
    simp [runRitualWorkflow, hres]
  refine ⟨hrun, ?_, ?_⟩ <;> rw [hrun] <;> simp [perspectiveOrder]

theorem workflow_all_perspectives_fail_witness :
    runRitualWorkflow
        ⟨fun _ => none, fun _ => none, fun _ => none, fun _ _ _ => none⟩ =
      (.failed .compositionFailed, perspectiveOrder.map StageCall.perspective) ∧
    StageCall.synthesis ∉
      (runRitualWorkflow
        ⟨fun _ => none, fun _ => none, fun _ => none, fun _ _ _ => none⟩).2 ∧
    StageCall.screening ∉
      (runRitualWorkflow
        ⟨fun _ => none, fun _ => none, fun _ => none, fun _ _ _ => none⟩).2 :=
  workflow_all_perspectives_fail
    ⟨fun _ => none, fun _ => none, fun _ => none, fun _ _ _ => none⟩
    (fun _ => rfl)

/-- C3 counterexample: registering a body while the server-generated
identifier already exists in the registry succeeds with 201 and no
error — there is no DuplicateAgent failure — and the registry changes:
the old descriptor under that identifier is overwritten by the new one,
refuting "fails with DuplicateAgent and the registry is left
unchanged". -/
theorem register_existing_id_overwrites :
    (handleAgentsPost
        ⟨[("custom_7_aaa", ⟨"Old", "oi", "gpt-4o", []⟩)],
         [("custom_7_aaa", ⟨"Old", "oi", "gpt-4o", [], []⟩)]⟩
        "custom_7_aaa" ⟨"New", "ni", none, none, none⟩).status = 201 ∧
    (handleAgentsPost
        ⟨[("custom_7_aaa", ⟨"Old", "oi", "gpt-4o", []⟩)],
         [("custom_7_aaa", ⟨"Old", "oi", "gpt-4o", [], []⟩)]⟩
        "custom_7_aaa" ⟨"New", "ni", none, none, none⟩).error = none ∧
    mapGet (handleAgentsPost
        ⟨[("custom_7_aaa", ⟨"Old", "oi", "gpt-4o", []⟩)],
         [("custom_7_aaa", ⟨"Old", "oi", "gpt-4o", [], []⟩)]⟩
        "custom_7_aaa" ⟨"New", "ni", none, none, none⟩).state.agentConfigs
        "custom_7_aaa" = some ⟨"New", "ni", "gpt-4o", [], []⟩ := by
  decide

/-- C3 amended: the registration operation never rejects a duplicate —
it performs no identifier check at all; any body whose name and
instructions are non-empty is stored unconditionally with `Map.set`
under the server-generated identifier, answering 201, and afterwards
that identifier maps to the new descriptor (overwriting any previous
one). -/
theorem register_never_fails_duplicate (st : RegistryState) (freshId : String)
    (b : AgentCreateBody) (hn : b.name ≠ "") (hi : b.instructions ≠ "") :
    (handleAgentsPost st freshId b).status = 201 ∧
    (handleAgentsPost st freshId b).error = none ∧
    mapGet (handleAgentsPost st freshId b).state.agentConfigs freshId =
      some ⟨b.name, b.instructions, b.model.getD "gpt-4o",
            b.tools.getD [], b.handoffs.getD []⟩ := by
  simp [handleAgentsPost, AgentCreateSchema.parse, hn, hi, mapGet_mapSet_self]

theorem register_never_fails_duplicate_witness :
    (handleAgentsPost ⟨[], []⟩ "custom_1_x" ⟨"N", "I", none, none, none⟩).status = 201 ∧
    (handleAgentsPost ⟨[], []⟩ "custom_1_x" ⟨"N", "I", none, none, none⟩).error = none ∧
    mapGet (handleAgentsPost ⟨[], []⟩ "custom_1_x"
        ⟨"N", "I", none, none, none⟩).state.agentConfigs "custom_1_x" =
      some ⟨"N", "I", "gpt-4o", [], []⟩ :=
  register_never_fails_duplicate ⟨[], []⟩ "custom_1_x"
    ⟨"N", "I", none, none, none⟩ (by decide) (by decide)

/-- C4 counterexample: a request with an invalid credential whose client
key has exhausted its rate-limit budget is answered 429, not 401 — the
rate limiter runs before the credential check, so a bad-credential
request does not always yield 401. -/
theorem unauthorized_but_rate_limited :
    authOk none (some "wrong-key") (some "sek") = false ∧
    (withMiddleware [("1.2.3.4", (100, 5))] 10 (some "1.2.3.4")
        none (some "wrong-key") (some "sek") 200 1).status = 429 ∧
    (withMiddleware [("1.2.3.4", (100, 5))] 10 (some "1.2.3.4")
        none (some "wrong-key") (some "sek") 200 1).status ≠ 401 := by
  decide

/-- C4 amended: for every request whose credential is absent or wrong,
the wrapped route handler never executes and no generation invocation is
made; and whenever the rate limiter admits the request, the response is
401 unauthorized. -/
theorem unauthorized_short_circuits (limiter : LimiterMap) (now : Nat)
    (xff auth xkey secret : Option String) (hs hg : Nat)
    (hbad : authOk auth xkey secret = false) :
    (withMiddleware limiter now xff auth xkey secret hs hg).handlerRan = false ∧
    (withMiddleware limiter now xff auth xkey secret hs hg).genCalls = 0 ∧
    ((rlConsume limiter (xff.getD "default") now).2 = true →
      (withMiddleware limiter now xff auth xkey secret hs hg).status = 401 ∧
      (withMiddleware limiter now xff auth xkey secret hs hg).error =
        some "unauthorized") := by
  by_cases hadm : (rlConsume limiter (xff.getD "default") now).2 = true
  · simp [withMiddleware, hadm, hbad]
  · simp [withMiddleware, hadm, hbad]

theorem unauthorized_short_circuits_witness :
    authOk none (some "bad") (some "sek") = false ∧
    ((withMiddleware [] 3 none none (some "bad") (some "sek") 200 1).handlerRan = false ∧
     (withMiddleware [] 3 none none (some "bad") (some "sek") 200 1).genCalls = 0 ∧
     ((rlConsume [] "default" 3).2 = true →
       (withMiddleware [] 3 none none (some "bad") (some "sek") 200 1).status = 401 ∧
       (withMiddleware [] 3 none none (some "bad") (some "sek") 200 1).error =
         some "unauthorized")) :=
  ⟨by decide,
   unauthorized_short_circuits [] 3 none none (some "bad") (some "sek") 200 1 (by decide)⟩

/-- C6: every streamed chat response opens with one start event naming
the initiating agent and is either start, result, end (with zero
content events) on success, or start followed by exactly one error
event on a generation failure; the end or error event is the final
element, so nothing is written after it and the stream terminates. -/
theorem stream_event_sequence (a : String) (o : GenOutcome) :
    (streamEvents a o).head? = some (.start a) ∧
    ((∃ r h u l, streamEvents a o = [.start a, .result r h u l, .endEv]) ∨
     (∃ m, streamEvents a o = [.start a, .errorEv m])) := by
  cases o with
  | ok r h la => exact ⟨rfl, .inl ⟨r, h, a, la.getD a, rfl⟩⟩
  | fail m => exact ⟨rfl, .inr ⟨m, rfl⟩⟩

/-- C7: posting a valid agent-creation body and then getting the
returned identifier yields status 200 and a descriptor whose name,
instructions, model, tools (and handoffs) are identical to those
submitted. -/
theorem agent_round_trip (st : RegistryState) (freshId name instr mdl : String)
    (tools hfs : List String) (hn : name ≠ "") (hi : instr ≠ "") :
    (handleAgentsPost st freshId ⟨name, instr, some mdl, some tools, some hfs⟩).status = 201 ∧
    (handleAgentsPost st freshId ⟨name, instr, some mdl, some tools, some hfs⟩).returnedId =
      some freshId ∧
    handleAgentsGet
        (handleAgentsPost st freshId ⟨name, instr, some mdl, some tools, some hfs⟩).state
        freshId =
      (200, some (freshId, ⟨name, instr, mdl, tools, hfs⟩)) := by
  simp [handleAgentsPost, AgentCreateSchema.parse, hn, hi, handleAgentsGet,
        mapGet_mapSet_self]

theorem agent_round_trip_witness :
    (handleAgentsPost ⟨[], []⟩ "custom_2_y"
        ⟨"Code Reviewer", "You review code", some "gpt-4o", some ["lint"], some []⟩).status = 201 ∧
    (handleAgentsPost ⟨[], []⟩ "custom_2_y"
        ⟨"Code Reviewer", "You review code", some "gpt-4o", some ["lint"], some []⟩).returnedId =
      some "custom_2_y" ∧
    handleAgentsGet
        (handleAgentsPost ⟨[], []⟩ "custom_2_y"
          ⟨"Code Reviewer", "You review code", some "gpt-4o", some ["lint"], some []⟩).state
        "custom_2_y" =
      (200, some ("custom_2_y", ⟨"Code Reviewer", "You review code", "gpt-4o", ["lint"], []⟩)) :=
  agent_round_trip ⟨[], []⟩ "custom_2_y" "Code Reviewer" "You review code"
    "gpt-4o" ["lint"] [] (by decide) (by decide)

/-- C8: for a non-empty history, the input forwarded to the generation
service in `handleChat` and `handleQuickChat` is exactly the supplied
history in its original order with the new user message appended as the
last element — no turn is mutated, reordered or dropped. -/
theorem forwarded_input_preserves_history (history : List Turn) (msg : String)
    (h : history ≠ []) :
    buildInput history msg = .inr (history ++ [Turn.userT msg]) := by
  have hp : history.length > 0 := List.length_pos.mpr h
  simp [buildInput, hp]

theorem forwarded_input_preserves_history_witness :
    buildInput [Turn.userT "hi", Turn.assistantT "hello"] "thanks" =
      .inr [Turn.userT "hi", Turn.assistantT "hello", Turn.userT "thanks"] :=
  forwarded_input_preserves_history
    [Turn.userT "hi", Turn.assistantT "hello"] "thanks" (by decide)

/-- C9: a registration body with an empty name or empty instructions is
answered 400 with a validation error whose issue list pinpoints exactly
the offending fields, and both the agents and agentConfigs maps are left
unchanged. -/
theorem invalid_registration_rejected (st : RegistryState) (freshId : String)
    (b : AgentCreateBody) (h : b.name = "" ∨ b.instructions = "") :
    (handleAgentsPost st freshId b).status = 400 ∧
    (handleAgentsPost st freshId b).error = some "validation_error" ∧
    (handleAgentsPost st freshId b).issues ≠ [] ∧
    (FieldIssue.nameTooSmall ∈ (handleAgentsPost st freshId b).issues ↔ b.name = "") ∧
    (FieldIssue.instructionsTooSmall ∈ (handleAgentsPost st freshId b).issues ↔
      b.instructions = "") ∧
    (handleAgentsPost st freshId b).state = st := by
  by_cases hn : b.name = "" <;> by_cases hi : b.instructions = ""
  · simp [handleAgentsPost, AgentCreateSchema.parse, hn, hi]
  · simp [handleAgentsPost, AgentCreateSchema.parse, hn, hi]
  · simp [handleAgentsPost, AgentCreateSchema.parse, hn, hi]
  · exact absurd h (by simp [hn, hi])

theorem invalid_registration_rejected_witness :
    (handleAgentsPost ⟨[], []⟩ "custom_3_z" ⟨"", "some instructions", none, none, none⟩).status = 400 ∧
    (handleAgentsPost ⟨[], []⟩ "custom_3_z" ⟨"", "some instructions", none, none, none⟩).error =
      some "validation_error" ∧
    (handleAgentsPost ⟨[], []⟩ "custom_3_z" ⟨"", "some instructions", none, none, none⟩).issues ≠ [] ∧
    (FieldIssue.nameTooSmall ∈
        (handleAgentsPost ⟨[], []⟩ "custom_3_z" ⟨"", "some instructions", none, none, none⟩).issues ↔
      ("" : String) = "") ∧
    (FieldIssue.instructionsTooSmall ∈
        (handleAgentsPost ⟨[], []⟩ "custom_3_z" ⟨"", "some instructions", none, none, none⟩).issues ↔
      ("some instructions" : String) = "") ∧
    (handleAgentsPost ⟨[], []⟩ "custom_3_z" ⟨"", "some instructions", none, none, none⟩).state =
      ⟨[], []⟩ :=
  invalid_registration_rejected ⟨[], []⟩ "custom_3_z"
    ⟨"", "some instructions", none, none, none⟩ (Or.inl rfl)

/-- C10 counterexample: a request whose Authorization header is the
non-empty string "Bearer " (an empty bearer token, hence not equal to
the secret) but whose x-api-key header carries the correct secret is
authorized and reaches the handler with status 200 — the x-api-key
header is consulted despite a non-empty Authorization header, and the
request is not rejected with 401. -/
theorem blank_bearer_falls_back_to_api_key :
    stripBearer "Bearer " = "" ∧
    authOk (some "Bearer ") (some "sek") (some "sek") = true ∧
    (withMiddleware [] 0 none (some "Bearer ") (some "sek") (some "sek") 200 1).status = 200 ∧
    (withMiddleware [] 0 none (some "Bearer ") (some "sek") (some "sek") 200 1).handlerRan = true := by
  decide

/-- C10 amended: only when the Authorization value still contains a
non-empty string after removing the first occurrence of "Bearer " is
that string the credential, with x-api-key ignored; such a request
whose stripped token differs from the secret is rejected 401 even if
its x-api-key is correct.  (When the stripped value is empty the code
falls back to the x-api-key header.) -/
theorem bearer_token_precedence (a : String) (xkey secret : Option String)
    (h : stripBearer a ≠ "") :
    extractCredential (some a) xkey = some (stripBearer a) ∧
    (some (stripBearer a) ≠ secret →
      authOk (some a) xkey secret = false ∧
      (withMiddleware [] 0 none (some a) xkey secret 200 1).status = 401) := by
  have hcred : extractCredential (some a) xkey = some (stripBearer a) := by
    simp [extractCredential, h]
  refine ⟨hcred, fun hne => ?_⟩
  have hauth : authOk (some a) xkey secret = false := by
    simp [authOk, hcred, h, hne]
  refine ⟨hauth, ?_⟩
  simp [withMiddleware, rlConsume, mapGet, hauth]

theorem bearer_token_precedence_witness :
    stripBearer "Bearer wrong" ≠ "" ∧
    (extractCredential (some "Bearer wrong") (some "sek") = some (stripBearer "Bearer wrong") ∧
     (some (stripBearer "Bearer wrong") ≠ some "sek" →
       authOk (some "Bearer wrong") (some "sek") (some "sek") = false ∧
       (withMiddleware [] 0 none (some "Bearer wrong") (some "sek") (some "sek") 200 1).status =
         401)) :=
  ⟨by decide, bearer_token_precedence "Bearer wrong" (some "sek") (some "sek") (by decide)⟩

/-- C5: from a fresh state, one client key is admitted on exactly its
first 100 requests inside a 60-second window; the 101st request within
the window is rejected by the limiter and the gateway answers 429
rate_limit_exceeded; once the window has elapsed, admission resumes for
that client. -/
theorem rate_limit_window (t d : Nat) (key : String)
    (auth xkey secret : Option String) (hs hg : Nat) (hd : d < rlDuration) :
    (consumeRepeat [] key t 100).2 = 100 ∧
    (rlConsume (consumeRepeat [] key t 100).1 key (t + d)).2 = false ∧
    (withMiddleware (consumeRepeat [] key t 100).1 (t + d) (some key)
        auth xkey secret hs hg).status = 429 ∧
    (withMiddleware (consumeRepeat [] key t 100).1 (t + d) (some key)
        auth xkey secret hs hg).error = some "rate_limit_exceeded" ∧
    (rlConsume (consumeRepeat [] key t 100).1 key (t + rlDuration)).2 = true := by
  obtain ⟨hcount, hstate⟩ := consumeRepeat_hundred key t
  have hwin : ¬ (t + rlDuration ≤ t + d) := by
    simp only [rlDuration] at hd ⊢
    omega
  have hreject : rlConsume (consumeRepeat [] key t 100).1 key (t + d) =
      ((consumeRepeat [] key t 100).1, false) := by
    simp [rlConsume, hstate, hwin, rlPoints]
  have hresume : (rlConsume (consumeRepeat [] key t 100).1 key (t + rlDuration)).2 = true := by
    simp [rlConsume, hstate]
  refine ⟨hcount, by simp [hreject], ?_, ?_, hresume⟩ <;>
    simp [withMiddleware, hreject]

theorem rate_limit_window_witness :
    (0 : Nat) < rlDuration ∧
    ((consumeRepeat [] "1.2.3.4" 0 100).2 = 100 ∧
     (rlConsume (consumeRepeat [] "1.2.3.4" 0 100).1 "1.2.3.4" (0 + 0)).2 = false ∧
     (withMiddleware (consumeRepeat [] "1.2.3.4" 0 100).1 (0 + 0) (some "1.2.3.4")
         none none none 200 1).status = 429 ∧
     (withMiddleware (consumeRepeat [] "1.2.3.4" 0 100).1 (0 + 0) (some "1.2.3.4")
         none none none 200 1).error = some "rate_limit_exceeded" ∧
     (rlConsume (consumeRepeat [] "1.2.3.4" 0 100).1 "1.2.3.4" (0 + rlDuration)).2 = true) :=
  ⟨by decide, rate_limit_window 0 0 "1.2.3.4" none none none 200 1 (by decide)⟩

end AgentServer



